import Mathlib

/-!
Verification of the Code-Reviewer workflow engine (`src/flows/langgraph_flow.py`).

Python text values are embedded as `List Char`.  The helpers `pyStrip`,
`pyLower` and `pyUpper` model `str.strip()`, `str.lower()` and `str.upper()`
(character-wise ASCII case mapping, which agrees with Python on the ASCII
texts the flow compares).  Python's substring test `pat in s` is embedded as
`decide (pat <:+: s)`.  Calls to the external LLM service are modelled by an
oracle supplying the response text of each engine iteration; console input
for the approval gate is an `Except Unit` value (`Except.error` models an
exception raised while reading input).
-/

/-- Whitespace set of Python `str.strip()`. -/
def pyIsSpace (c : Char) : Bool :=
  c = ' ' || c = '\t' || c = '\n' || c = '\r' || c = '\x0b' || c = '\x0c'

/-- Python `str.strip()`: remove leading and trailing whitespace. -/
def pyStrip (s : List Char) : List Char :=
  ((s.dropWhile pyIsSpace).reverse.dropWhile pyIsSpace).reverse

/-- Python `str.lower()` (ASCII case mapping). -/
def pyLower (s : List Char) : List Char := s.map Char.toLower

/-- Python `str.upper()` (ASCII case mapping). -/
def pyUpper (s : List Char) : List Char := s.map Char.toUpper

/-- The dataclass `FlowState` of `langgraph_flow.py` (lines 41-48):
`user_input` is required, every other field defaults to `None`. -/
structure FlowState where
  user_input : List Char
  generated_code : Option (List Char) := none
  reviewer_feedback : Option (List Char) := none
  docs_code : Option (List Char) := none
  orchestrator_decision : Option (List Char) := none
  approval_status : Option (List Char) := none
deriving DecidableEq, Repr

/-- `router` (lines 84-92): upper-cases `orchestrator_decision or ""` and
dispatches on the three recognized values, defaulting to the fallback node. -/
def router (state : FlowState) : String :=
  let decision := pyUpper ((state.orchestrator_decision).getD [])
  if decision = "GENERATE".toList then "code_generator"
  else if decision = "REVIEW".toList then "code_reviewer"
  else if decision = "DOCUMENT".toList then "documentation_agent"
  else "fallback_agent"

/-- `needs_retry` (lines 152-154): lower-cases `reviewer_feedback or ""` and
tests it for the substrings "error" and "fix". -/
def needs_retry (state : FlowState) : Bool :=
  let fb := pyLower ((state.reviewer_feedback).getD [])
  decide ("error".toList <:+: fb) || decide ("fix".toList <:+: fb)

/-- `reviewer_route` (lines 201-202), the conditional edge out of the
review node. -/
def reviewer_route (state : FlowState) : String :=
  if needs_retry state then "code_generator" else "documentation_agent"

/-- `orchestrator_node` (lines 78-81): stores the stripped, upper-cased
service response in `orchestrator_decision`.  `resp` is the text returned by
`call_llm`. -/
def orchestrator_node (state : FlowState) (resp : List Char) : FlowState :=
  { state with orchestrator_decision := some (pyUpper (pyStrip resp)) }

/-- `code_generator` (lines 115-119): stores the stripped response in
`generated_code`. -/
def code_generator (state : FlowState) (resp : List Char) : FlowState :=
  { state with generated_code := some (pyStrip resp) }

/-- `code_reviewer` (lines 122-127): stores the stripped response in
`reviewer_feedback`. -/
def code_reviewer (state : FlowState) (resp : List Char) : FlowState :=
  { state with reviewer_feedback := some (pyStrip resp) }

/-- `documentation_agent` (lines 130-135): stores the stripped response in
`docs_code`. -/
def documentation_agent (state : FlowState) (resp : List Char) : FlowState :=
  { state with docs_code := some (pyStrip resp) }

/-- `fallback_agent` (lines 138-145): stores the stripped response in
`docs_code`, the same field the documentation node writes. -/
def fallback_agent (state : FlowState) (resp : List Char) : FlowState :=
  { state with docs_code := some (pyStrip resp) }

/-- `human_in_the_loop` (lines 157-168).  `allow_human_input` is the ambient
value of the environment variable `ALLOW_HUMAN_INPUT` (none when unset);
`console` is the outcome of `input()` (`Except.error` when reading raises).
The code answers `"approved"` when the stripped, lower-cased answer is
exactly `"y"`, and `"not approved"` otherwise or on an exception; with the
variable not equal to `"1"` it answers `"approved"` without prompting. -/
def human_in_the_loop (state : FlowState) (allow_human_input : Option (List Char))
    (console : Except Unit (List Char)) : FlowState :=
  if allow_human_input = some ("1".toList) then
    match console with
    | Except.ok ans =>
        let status := if pyLower (pyStrip ans) = "y".toList
                      then "approved".toList else "not approved".toList
        { state with approval_status := some status }
    | Except.error _ =>
        { state with approval_status := some ("not approved".toList) }
  else
    { state with approval_status := some ("approved".toList) }

/-- Node names of the graph built by `build_graph` (lines 175-216).  `END`
is langgraph's terminal marker; `graphError` models the fatal error langgraph
raises when a conditional router returns a name outside the edge's mapping. -/
inductive Node where
  | orchestrator
  | code_generator
  | code_reviewer
  | documentation_agent
  | fallback_agent
  | human_gate
  | END
  | graphError
deriving DecidableEq, Repr

/-- External inputs of one run: the service response used at each engine
iteration, the ambient `ALLOW_HUMAN_INPUT` environment value, and the console
input available to the approval gate. -/
structure RunInputs where
  oracle : Nat → List Char
  allow_human_input : Option (List Char)
  console : Except Unit (List Char)

/-- Destination mapping of the conditional edge out of `orchestrator`
(lines 190-195); `none` models a router result outside the mapping. -/
def orchestratorEdge (name : String) : Option Node :=
  if name = "code_generator" then some Node.code_generator
  else if name = "code_reviewer" then some Node.code_reviewer
  else if name = "documentation_agent" then some Node.documentation_agent
  else if name = "fallback_agent" then some Node.fallback_agent
  else none

/-- Destination mapping of the conditional edge out of `code_reviewer`
(lines 204-207). -/
def reviewerEdge (name : String) : Option Node :=
  if name = "code_generator" then some Node.code_generator
  else if name = "documentation_agent" then some Node.documentation_agent
  else none

/-- Applying the node bound to a name (lines 179-184): the LLM-backed nodes
consume the oracle response of iteration `i`; the human gate reads the
environment and the console. -/
def applyNode (inputs : RunInputs) (i : Nat) : Node → FlowState → FlowState
  | Node.orchestrator, s => orchestrator_node s (inputs.oracle i)
  | Node.code_generator, s => code_generator s (inputs.oracle i)
  | Node.code_reviewer, s => code_reviewer s (inputs.oracle i)
  | Node.documentation_agent, s => documentation_agent s (inputs.oracle i)
  | Node.fallback_agent, s => fallback_agent s (inputs.oracle i)
  | Node.human_gate, s => human_in_the_loop s inputs.allow_human_input inputs.console
  | Node.END, s => s
  | Node.graphError, s => s

/-- Edge resolution of the graph (lines 187-214): conditional edges out of
`orchestrator` and `code_reviewer`, fixed edges elsewhere.  The router is
evaluated on the state produced by the node just applied. -/
def nextNode : Node → FlowState → Node
  | Node.orchestrator, s => (orchestratorEdge (router s)).getD Node.graphError
  | Node.code_generator, _ => Node.code_reviewer
  | Node.code_reviewer, s => (reviewerEdge (reviewer_route s)).getD Node.graphError
  | Node.documentation_agent, _ => Node.human_gate
  | Node.human_gate, _ => Node.END
  | Node.fallback_agent, _ => Node.END
  | Node.END, _ => Node.END
  | Node.graphError, _ => Node.graphError

/-- Whether the engine has stopped. -/
def isTerminal : Node → Bool
  | Node.END => true
  | Node.graphError => true
  | _ => false

/-- One engine iteration: apply the current node to the state, then resolve
the next node from the updated state.  The first component counts the
iterations performed, indexing the oracle. -/
def engineIter (inputs : RunInputs) : Nat × Node × FlowState → Nat × Node × FlowState
  | (i, n, s) =>
    if isTerminal n then (i, n, s)
    else
      let s' := applyNode inputs i n s
      (i + 1, nextNode n s', s')

/-- The engine trace after `k` iterations from a starting node and state. -/
def engineTrace (inputs : RunInputs) (start : Node × FlowState) : Nat → Nat × Node × FlowState
  | 0 => (0, start.1, start.2)
  | k + 1 => engineIter inputs (engineTrace inputs start k)

/-- Initial state of `arun` (line 222): only `user_input` is populated. -/
def initState (user_input : List Char) : FlowState :=
  { user_input := user_input }

/-- The result record returned by `arun` (lines 224-230). -/
structure RunResult where
  decision : Option (List Char)
  generated_code : Option (List Char)
  reviewer_feedback : Option (List Char)
  documented_code : Option (List Char)
  approval_status : Option (List Char)
deriving DecidableEq, Repr

/-- Projection of the final `FlowState` to the dict `arun` returns
(lines 224-230): `documented_code` is read from `docs_code`. -/
def run_result (s : FlowState) : RunResult :=
  { decision := s.orchestrator_decision
    generated_code := s.generated_code
    reviewer_feedback := s.reviewer_feedback
    documented_code := s.docs_code
    approval_status := s.approval_status }

/-- Modelled from the spec: the CheckpointStore contract of section 4.6
(`save(runID, state)`, `load(runID) -> state | NotFound`).  The source
realizes it with the external library class `MemorySaver` (line 220), whose
code is not part of this repository; it is modelled as keyed snapshots with
the most recent snapshot for a run shadowing older ones. -/
abbrev CheckpointStore := List (List Char × FlowState)

/-- Modelled from the spec: `save(runID, state)` records a snapshot. -/
def CheckpointStore.save (st : CheckpointStore) (runID : List Char) (s : FlowState) :
    CheckpointStore :=
  (runID, s) :: st

/-- Modelled from the spec: `load(runID)` returns the most recent snapshot
for the run, or `none` (NotFound). -/
def CheckpointStore.load (st : CheckpointStore) (runID : List Char) : Option FlowState :=
  match st with
  | [] => none
  | (k, s) :: rest => if runID = k then some s else CheckpointStore.load rest runID

/-- A text contains a case-variant of the (lower-case) pattern `pat` as a
contiguous substring. -/
def containsAnyCase (pat text : List Char) : Prop :=
  ∃ sub, sub.map Char.toLower = pat ∧ sub <:+: text

/-- A pattern is an infix of a mapped list exactly when some preimage of it
under the map is an infix of the original list. -/
theorem infix_map_exists {α β : Type} (f : α → β) (pat : List β) (l : List α) :
    pat <:+: l.map f ↔ ∃ sub, sub.map f = pat ∧ sub <:+: l := by
  constructor
  · rintro ⟨s, t, h⟩
    have h' : s ++ (pat ++ t) = List.map f l := by
      simpa [List.append_assoc] using h
    rcases List.append_eq_map_iff.mp h' with ⟨l₁, l₂, rfl, hs, hpt⟩
    rcases List.append_eq_map_iff.mp hpt.symm with ⟨a, b, rfl, ha, hb⟩
    exact ⟨a, ha, ⟨l₁, b, by simp [List.append_assoc]⟩⟩
  · rintro ⟨sub, rfl, hinf⟩
    exact hinf.map f

/-- Upper-casing a character twice is the same as upper-casing it once. -/
theorem char_toUpper_idem (c : Char) : Char.toUpper (Char.toUpper c) = Char.toUpper c := by
  have hval : forall m : Nat, Nat.isValidChar m -> (Char.ofNat m).toNat = m := by
    intro m hm
    rw [Char.ofNat, dif_pos hm]
    rfl
  simp only [Char.toUpper]
  by_cases h : c.toNat >= 97 ∧ c.toNat <= 122
  · rw [if_pos h]
    have hv : Nat.isValidChar (c.toNat - 32) := Or.inl (by omega)
    rw [hval _ hv]
    rw [if_neg (by omega : ¬(c.toNat - 32 >= 97 ∧ c.toNat - 32 <= 122))]
  · rw [if_neg h, if_neg h]

/-- Upper-casing a text twice is the same as upper-casing it once. -/
theorem pyUpper_idem (s : List Char) : pyUpper (pyUpper s) = pyUpper s := by
  induction s with
  | nil => rfl
  | cons c t ih =>
      simp only [pyUpper, List.map_cons] at ih ⊢
      rw [char_toUpper_idem, ih]

/-- The orchestrator conditional edge never resolves to the approval gate or
the terminal marker, whatever name the router returns. -/
theorem orchestratorEdge_getD_ne (nm : String) :
    (orchestratorEdge nm).getD Node.graphError ≠ Node.human_gate ∧
    (orchestratorEdge nm).getD Node.graphError ≠ Node.END := by
  refine ⟨?_, ?_⟩ <;> unfold orchestratorEdge <;> (repeat' split) <;> decide

/-- The reviewer conditional edge never resolves to the approval gate or the
terminal marker, whatever name the router returns. -/
theorem reviewerEdge_getD_ne (nm : String) :
    (reviewerEdge nm).getD Node.graphError ≠ Node.human_gate ∧
    (reviewerEdge nm).getD Node.graphError ≠ Node.END := by
  refine ⟨?_, ?_⟩ <;> unfold reviewerEdge <;> (repeat' split) <;> decide

/-- The approval gate leaves every field other than `approval_status`
unchanged. -/
theorem human_in_the_loop_frame (s : FlowState) (env : Option (List Char))
    (console : Except Unit (List Char)) :
    (human_in_the_loop s env console).user_input = s.user_input ∧
    (human_in_the_loop s env console).generated_code = s.generated_code ∧
    (human_in_the_loop s env console).reviewer_feedback = s.reviewer_feedback ∧
    (human_in_the_loop s env console).docs_code = s.docs_code ∧
    (human_in_the_loop s env console).orchestrator_decision = s.orchestrator_decision := by
  unfold human_in_the_loop
  split
  · cases console <;> exact ⟨rfl, rfl, rfl, rfl, rfl⟩
  · exact ⟨rfl, rfl, rfl, rfl, rfl⟩

/-- No node of the graph modifies `user_input`. -/
theorem applyNode_user_input (inputs : RunInputs) (i : Nat) (n : Node) (s : FlowState) :
    (applyNode inputs i n s).user_input = s.user_input := by
  cases n with
  | human_gate => exact (human_in_the_loop_frame s inputs.allow_human_input inputs.console).1
  | orchestrator => rfl
  | code_generator => rfl
  | code_reviewer => rfl
  | documentation_agent => rfl
  | fallback_agent => rfl
  | END => rfl
  | graphError => rfl

/-- `user_input` is constant along every engine trace. -/
theorem engineTrace_user_input (inputs : RunInputs) (start : Node × FlowState) (k : Nat) :
    ((engineTrace inputs start k).2.2).user_input = start.2.user_input := by
  induction k with
  | zero => rfl
  | succ k ih =>
      rcases htr : engineTrace inputs start k with ⟨i, n, s⟩
      rw [htr] at ih
      rw [engineTrace, htr]
      simp only [engineIter]
      split
      · exact ih
      · rw [applyNode_user_input]
        exact ih

/-- Along a run started at the orchestrator, whenever the engine stands at
the approval gate or at the terminal marker, `docs_code` is populated: the
gate is only reachable through the documentation node and the terminal
marker only through the gate or the fallback node, each of which writes
`docs_code`. -/
theorem engineTrace_docs_invariant (inputs : RunInputs) (t : List Char) (k : Nat) :
    ((engineTrace inputs (Node.orchestrator, initState t) k).2.1 = Node.human_gate →
      ((engineTrace inputs (Node.orchestrator, initState t) k).2.2).docs_code.isSome = true) ∧
    ((engineTrace inputs (Node.orchestrator, initState t) k).2.1 = Node.END →
      ((engineTrace inputs (Node.orchestrator, initState t) k).2.2).docs_code.isSome = true) := by
  induction k with
  | zero =>
      exact ⟨fun h => Node.noConfusion h, fun h => Node.noConfusion h⟩
  | succ k ih =>
      rcases htr : engineTrace inputs (Node.orchestrator, initState t) k with ⟨i, n, s⟩
      rw [htr] at ih
      rw [engineTrace, htr]
      cases n with
      | orchestrator =>
          constructor <;> intro h
          · exact absurd h (orchestratorEdge_getD_ne _).1
          · exact absurd h (orchestratorEdge_getD_ne _).2
      | code_generator =>
          exact ⟨fun h => Node.noConfusion h, fun h => Node.noConfusion h⟩
      | code_reviewer =>
          constructor <;> intro h
          · exact absurd h (reviewerEdge_getD_ne _).1
          · exact absurd h (reviewerEdge_getD_ne _).2
      | documentation_agent =>
          exact ⟨fun _ => rfl, fun h => Node.noConfusion h⟩
      | fallback_agent =>
          exact ⟨fun h => Node.noConfusion h, fun _ => rfl⟩
      | human_gate =>
          refine ⟨fun h => Node.noConfusion h, fun _ => ?_⟩
          have hiter : (engineIter inputs (i, Node.human_gate, s)).2.2 =
              human_in_the_loop s inputs.allow_human_input inputs.console := rfl
          rw [hiter, (human_in_the_loop_frame s inputs.allow_human_input inputs.console).2.2.2.1]
          exact ih.1 rfl
      | END =>
          exact ⟨fun h => Node.noConfusion h, fun _ => ih.2 rfl⟩
      | graphError =>
          exact ⟨fun h => Node.noConfusion h, fun h => Node.noConfusion h⟩

/-- Claim C9: checkpoint round-trip — for every store content, run id and
state snapshot, loading immediately after saving returns exactly the saved
state. -/
theorem checkpoint_roundtrip (st : CheckpointStore) (runID : List Char) (S : FlowState) :
    CheckpointStore.load (CheckpointStore.save st runID S) runID = some S := by
  simp [CheckpointStore.save, CheckpointStore.load]

/-- Claim C10: for every state, the orchestrator router answers a member of
its edge's destination set and the reviewer router a member of its own, so
each conditional-edge lookup succeeds and the fatal out-of-range branch is
unreachable. -/
theorem routers_in_range (s : FlowState) :
    (router s = "code_generator" ∨ router s = "code_reviewer" ∨
      router s = "documentation_agent" ∨ router s = "fallback_agent") ∧
    (reviewer_route s = "code_generator" ∨ reviewer_route s = "documentation_agent") ∧
    (orchestratorEdge (router s)).isSome = true ∧
    (reviewerEdge (reviewer_route s)).isSome = true := by
  have h1 : router s = "code_generator" ∨ router s = "code_reviewer" ∨
      router s = "documentation_agent" ∨ router s = "fallback_agent" := by
    simp only [router]
    (repeat' split) <;> simp
  have h2 : reviewer_route s = "code_generator" ∨ reviewer_route s = "documentation_agent" := by
    simp only [reviewer_route]
    split <;> simp
  refine ⟨h1, h2, ?_, ?_⟩
  · rcases h1 with h | h | h | h <;> rw [h] <;> decide
  · rcases h2 with h | h <;> rw [h] <;> decide

/-- Claim C8: frame property — `user_input` is never modified (by any node,
hence along any trace), and each agent node writes only its designated field,
leaving every other field unchanged. -/
theorem steps_frame (s : FlowState) (resp : List Char) (env : Option (List Char))
    (console : Except Unit (List Char)) (inputs : RunInputs) (i : Nat) (n : Node)
    (start : Node × FlowState) (k : Nat) :
    ((orchestrator_node s resp).user_input = s.user_input ∧
      (orchestrator_node s resp).generated_code = s.generated_code ∧
      (orchestrator_node s resp).reviewer_feedback = s.reviewer_feedback ∧
      (orchestrator_node s resp).docs_code = s.docs_code ∧
      (orchestrator_node s resp).approval_status = s.approval_status) ∧
    ((code_generator s resp).user_input = s.user_input ∧
      (code_generator s resp).reviewer_feedback = s.reviewer_feedback ∧
      (code_generator s resp).docs_code = s.docs_code ∧
      (code_generator s resp).orchestrator_decision = s.orchestrator_decision ∧
      (code_generator s resp).approval_status = s.approval_status) ∧
    ((code_reviewer s resp).user_input = s.user_input ∧
      (code_reviewer s resp).generated_code = s.generated_code ∧
      (code_reviewer s resp).docs_code = s.docs_code ∧
      (code_reviewer s resp).orchestrator_decision = s.orchestrator_decision ∧
      (code_reviewer s resp).approval_status = s.approval_status) ∧
    ((documentation_agent s resp).user_input = s.user_input ∧
      (documentation_agent s resp).generated_code = s.generated_code ∧
      (documentation_agent s resp).reviewer_feedback = s.reviewer_feedback ∧
      (documentation_agent s resp).orchestrator_decision = s.orchestrator_decision ∧
      (documentation_agent s resp).approval_status = s.approval_status) ∧
    ((fallback_agent s resp).user_input = s.user_input ∧
      (fallback_agent s resp).generated_code = s.generated_code ∧
      (fallback_agent s resp).reviewer_feedback = s.reviewer_feedback ∧
      (fallback_agent s resp).orchestrator_decision = s.orchestrator_decision ∧
      (fallback_agent s resp).approval_status = s.approval_status) ∧
    ((human_in_the_loop s env console).user_input = s.user_input ∧
      (human_in_the_loop s env console).generated_code = s.generated_code ∧
      (human_in_the_loop s env console).reviewer_feedback = s.reviewer_feedback ∧
      (human_in_the_loop s env console).docs_code = s.docs_code ∧
      (human_in_the_loop s env console).orchestrator_decision = s.orchestrator_decision) ∧
    (applyNode inputs i n s).user_input = s.user_input ∧
    ((engineTrace inputs start k).2.2).user_input = start.2.user_input :=
  ⟨⟨rfl, rfl, rfl, rfl, rfl⟩, ⟨rfl, rfl, rfl, rfl, rfl⟩, ⟨rfl, rfl, rfl, rfl, rfl⟩,
    ⟨rfl, rfl, rfl, rfl, rfl⟩, ⟨rfl, rfl, rfl, rfl, rfl⟩,
    human_in_the_loop_frame s env console,
    applyNode_user_input inputs i n s,
    engineTrace_user_input inputs start k⟩

/-- Claim C2 counterexample: a state whose `orchestrator_decision` is the
lower-case text "generate" — a value distinct from all of GENERATE, REVIEW
and DOCUMENT — is routed to the generation node, not to the fallback node,
refuting the claim that every value outside the three literals goes to the
fallback step. -/
theorem router_raw_value_cex :
    router { user_input := "t".toList,
             orchestrator_decision := some ("generate".toList) } = "code_generator" ∧
    ("generate".toList ≠ "GENERATE".toList ∧ "generate".toList ≠ "REVIEW".toList ∧
      "generate".toList ≠ "DOCUMENT".toList) ∧
    ("code_generator" : String) ≠ "fallback_agent" := by
  decide

/-- Claim C2 (amended): the router matches `routingDecision` up to
upper-casing — states whose decision upper-cases to GENERATE, REVIEW or
DOCUMENT go to the corresponding node, and every state whose decision
upper-cases to none of the three (including unset and the empty text) goes
to the fallback node. -/
theorem router_case_insensitive (s : FlowState) :
    (pyUpper ((s.orchestrator_decision).getD []) = "GENERATE".toList →
      router s = "code_generator") ∧
    (pyUpper ((s.orchestrator_decision).getD []) = "REVIEW".toList →
      router s = "code_reviewer") ∧
    (pyUpper ((s.orchestrator_decision).getD []) = "DOCUMENT".toList →
      router s = "documentation_agent") ∧
    ((pyUpper ((s.orchestrator_decision).getD []) ≠ "GENERATE".toList ∧
      pyUpper ((s.orchestrator_decision).getD []) ≠ "REVIEW".toList ∧
      pyUpper ((s.orchestrator_decision).getD []) ≠ "DOCUMENT".toList) →
      router s = "fallback_agent") := by
  refine ⟨fun h => ?_, fun h => ?_, fun h => ?_, fun h => ?_⟩
  · simp [router, h]
  · simp [router, h]
  · simp [router, h]
  · simp only [router]
    rw [if_neg h.1, if_neg h.2.1, if_neg h.2.2]

/-- Witness for the amended claim C2 at four concrete states. -/
theorem router_case_insensitive_witness :
    router { user_input := [], orchestrator_decision := some ("GeNeRaTe".toList) } =
      "code_generator" ∧
    router { user_input := [], orchestrator_decision := some ("review".toList) } =
      "code_reviewer" ∧
    router { user_input := [], orchestrator_decision := some ("Document".toList) } =
      "documentation_agent" ∧
    router { user_input := [], orchestrator_decision := none } = "fallback_agent" :=
  ⟨(router_case_insensitive _).1 (by decide),
    (router_case_insensitive _).2.1 (by decide),
    (router_case_insensitive _).2.2.1 (by decide),
    (router_case_insensitive _).2.2.2 (by decide)⟩

/-- Claim C4 counterexample: on the garbled service response "banana " the
orchestrator stores the raw upper-cased trimmed text BANANA, not the
normalized value UNKNOWN. -/
theorem orchestrator_no_unknown_cex :
    (orchestrator_node { user_input := "t".toList }
        ("banana ".toList)).orchestrator_decision = some ("BANANA".toList) ∧
    some ("BANANA".toList) ≠ some ("UNKNOWN".toList) := by
  decide

/-- Claim C4 (amended): the orchestrator stores the upper-cased, trimmed
service response verbatim, with no normalization to a closed set; any
response outside {GENERATE, REVIEW, DOCUMENT} — unexpected or empty text —
still leads the router to the fallback node, but `routingDecision` holds the
raw value rather than UNKNOWN (and a service failure is not caught by this
step). -/
theorem orchestrator_raw_decision (s : FlowState) (resp : List Char) :
    (orchestrator_node s resp).orchestrator_decision = some (pyUpper (pyStrip resp)) ∧
    ((pyUpper (pyStrip resp) ≠ "GENERATE".toList ∧
      pyUpper (pyStrip resp) ≠ "REVIEW".toList ∧
      pyUpper (pyStrip resp) ≠ "DOCUMENT".toList) →
      router (orchestrator_node s resp) = "fallback_agent") := by
  refine ⟨rfl, fun h => ?_⟩
  have hup : pyUpper (((orchestrator_node s resp).orchestrator_decision).getD []) =
      pyUpper (pyStrip resp) := by
    simp [orchestrator_node, pyUpper_idem]
  simp only [router]
  rw [hup, if_neg h.1, if_neg h.2.1, if_neg h.2.2]

/-- Witness for the amended claim C4 at the response "banana ". -/
theorem orchestrator_raw_decision_witness :
    (orchestrator_node { user_input := [] } ("banana ".toList)).orchestrator_decision =
      some (pyUpper (pyStrip ("banana ".toList))) ∧
    router (orchestrator_node { user_input := [] } ("banana ".toList)) = "fallback_agent" :=
  ⟨(orchestrator_raw_decision _ _).1, (orchestrator_raw_decision _ _).2 (by decide)⟩

/-- An affirmative console answer: a successfully read input whose stripped,
lower-cased text is exactly "y" (the gate prompts "(y/N)"). -/
def affirmative (console : Except Unit (List Char)) : Prop :=
  ∃ ans, console = Except.ok ans ∧ pyLower (pyStrip ans) = "y".toList

/-- In interactive mode with a successfully read answer, the gate's status is
determined by the stripped, lower-cased answer being "y". -/
theorem human_status_ok (s : FlowState) (ans : List Char) :
    (human_in_the_loop s (some ("1".toList)) (Except.ok ans)).approval_status =
      some (if pyLower (pyStrip ans) = "y".toList
            then "approved".toList else "not approved".toList) := by
  unfold human_in_the_loop
  rw [if_pos rfl]

/-- In interactive mode a failure to read input yields the rejected status. -/
theorem human_status_error (s : FlowState) (e : Unit) :
    (human_in_the_loop s (some ("1".toList)) (Except.error e)).approval_status =
      some ("not approved".toList) := rfl

/-- With the environment variable not equal to "1" the gate approves
unconditionally. -/
theorem human_status_off (s : FlowState) (env : Option (List Char))
    (console : Except Unit (List Char)) (h : env ≠ some ("1".toList)) :
    (human_in_the_loop s env console).approval_status = some ("approved".toList) := by
  unfold human_in_the_loop
  rw [if_neg h]

/-- Claim C5: the approval gate in non-interactive mode (environment value
distinct from "1") always answers approved; in interactive mode it answers
approved exactly on an affirmative input, and otherwise — on any other input
or on a failure to read one — the rejected outcome, whose literal in the
source is "not approved"; the status is never set to anything outside those
two values. -/
theorem approval_gate_two_mode (s : FlowState) (env : Option (List Char))
    (console : Except Unit (List Char)) :
    (env ≠ some ("1".toList) →
      (human_in_the_loop s env console).approval_status = some ("approved".toList)) ∧
    (env = some ("1".toList) →
      ((human_in_the_loop s env console).approval_status = some ("approved".toList) ↔
        affirmative console)) ∧
    ((human_in_the_loop s env console).approval_status = some ("approved".toList) ∨
      (human_in_the_loop s env console).approval_status = some ("not approved".toList)) := by
  refine ⟨fun h => human_status_off s env console h, fun h => ?_, ?_⟩
  · subst h
    cases console with
    | ok ans =>
        rw [human_status_ok]
        by_cases hy : pyLower (pyStrip ans) = "y".toList
        · rw [if_pos hy]
          exact ⟨fun _ => ⟨ans, rfl, hy⟩, fun _ => rfl⟩
        · rw [if_neg hy]
          refine ⟨fun hc => absurd (Option.some_inj.mp hc) (by decide), ?_⟩
          rintro ⟨a, ha, hlow⟩
          injection ha with ha'
          subst ha'
          exact absurd hlow hy
    | error e =>
        rw [human_status_error]
        refine ⟨fun hc => absurd (Option.some_inj.mp hc) (by decide), ?_⟩
        rintro ⟨a, ha, _⟩
        exact Except.noConfusion ha
  · by_cases h : env = some ("1".toList)
    · subst h
      cases console with
      | ok ans =>
          by_cases hy : pyLower (pyStrip ans) = "y".toList
          · left
            rw [human_status_ok, if_pos hy]
          · right
            rw [human_status_ok, if_neg hy]
      | error e =>
          right
          rw [human_status_error]
    · left
      exact human_status_off s env console h

/-- Witness for claim C5: non-interactive mode approves despite a negative
answer, and interactive mode approves the answer " Y ". -/
theorem approval_gate_two_mode_witness :
    (human_in_the_loop { user_input := [] } none
        (Except.ok ("n".toList))).approval_status = some ("approved".toList) ∧
    (human_in_the_loop { user_input := [] } (some ("1".toList))
        (Except.ok (" Y ".toList))).approval_status = some ("approved".toList) :=
  ⟨(approval_gate_two_mode _ _ _).1 (by decide),
    ((approval_gate_two_mode _ _ _).2.1 rfl).mpr ⟨" Y ".toList, rfl, by decide⟩⟩

/-- Claim C6 counterexample: with identical task state and identical console
input, the approval gate answers differently depending on the ambient value
of the `ALLOW_HUMAN_INPUT` environment variable, refuting the claim that
invocations with identical arguments behave identically regardless of
process environment — the interactive switch is ambient process state, not a
configuration field of `run` (`run` takes only the task text, and the CLI's
`--interactive` flag works by mutating `os.environ`). -/
theorem approval_env_dependence_cex :
    (human_in_the_loop { user_input := "t".toList } (some ("1".toList))
        (Except.ok ("n".toList))).approval_status = some ("not approved".toList) ∧
    (human_in_the_loop { user_input := "t".toList } none
        (Except.ok ("n".toList))).approval_status = some ("approved".toList) ∧
    some ("not approved".toList) ≠ some ("approved".toList) := by
  decide

/-- Claim C6 (amended): the interactive-mode switch is the ambient process
environment variable `ALLOW_HUMAN_INPUT`, read by the approval gate at
execution time rather than passed in run configuration; for every state and
console input the gate approves when the variable is unset, while under the
value "1" the very same invocation can answer "not approved", so concurrent
runs in one process share a single interactivity setting. -/
theorem approval_env_is_switch (s : FlowState) (console : Except Unit (List Char)) :
    (human_in_the_loop s none console).approval_status = some ("approved".toList) ∧
    (human_in_the_loop s (some ("1".toList))
        (Except.ok ("n".toList))).approval_status = some ("not approved".toList) := by
  constructor
  · exact human_status_off s none console (by decide)
  · rw [human_status_ok, if_neg (by decide : ¬pyLower (pyStrip ("n".toList)) = "y".toList)]

/-- Claim C3: `needs_retry` holds exactly for feedback texts containing a
case-variant of "error" or of "fix" as a substring — it is true whenever the
feedback contains either keyword in any letter case, false when it contains
neither, and false when the feedback field is unset. -/
theorem needs_retry_keyword_spec (s : FlowState) :
    (∀ fb, s.reviewer_feedback = some fb →
      ((containsAnyCase ("error".toList) fb ∨ containsAnyCase ("fix".toList) fb) →
        needs_retry s = true) ∧
      ((¬ containsAnyCase ("error".toList) fb ∧ ¬ containsAnyCase ("fix".toList) fb) →
        needs_retry s = false)) ∧
    (s.reviewer_feedback = none → needs_retry s = false) := by
  constructor
  · intro fb hfb
    have key : needs_retry s =
        (decide ("error".toList <:+: pyLower fb) || decide ("fix".toList <:+: pyLower fb)) := by
      simp only [needs_retry, hfb, Option.getD_some]
    constructor
    · intro h
      rw [key]
      rcases h with h | h
      · have h' : "error".toList <:+: pyLower fb :=
          (infix_map_exists Char.toLower ("error".toList) fb).mpr h
        rw [decide_eq_true h']
        exact Bool.true_or _
      · have h' : "fix".toList <:+: pyLower fb :=
          (infix_map_exists Char.toLower ("fix".toList) fb).mpr h
        rw [decide_eq_true h']
        exact Bool.or_true _
    · rintro ⟨h1, h2⟩
      rw [key]
      have h1' : ¬("error".toList <:+: pyLower fb) := fun hh =>
        h1 ((infix_map_exists Char.toLower ("error".toList) fb).mp hh)
      have h2' : ¬("fix".toList <:+: pyLower fb) := fun hh =>
        h2 ((infix_map_exists Char.toLower ("fix".toList) fb).mp hh)
      rw [decide_eq_false h1', decide_eq_false h2']
      rfl
  · intro hnone
    simp only [needs_retry, hnone]
    rfl

/-- Witness for claim C3: "Please Fix this" triggers a retry through the
capitalized "Fix", "Looks good" does not, and unset feedback does not. -/
theorem needs_retry_keyword_spec_witness :
    needs_retry { user_input := [], reviewer_feedback := some ("Please Fix this".toList) } =
      true ∧
    needs_retry { user_input := [], reviewer_feedback := some ("Looks good".toList) } =
      false ∧
    needs_retry { user_input := [], reviewer_feedback := none } = false := by
  refine ⟨?_, ?_, ?_⟩
  · exact ((needs_retry_keyword_spec _).1 _ rfl).1
      (Or.inr ⟨"Fix".toList, by decide, by decide⟩)
  · refine ((needs_retry_keyword_spec _).1 _ rfl).2 ⟨?_, ?_⟩
    · intro hc
      have hh : "error".toList <:+: ("Looks good".toList).map Char.toLower :=
        (infix_map_exists Char.toLower _ _).mpr hc
      exact absurd hh (by decide)
    · intro hc
      have hh : "fix".toList <:+: ("Looks good".toList).map Char.toLower :=
        (infix_map_exists Char.toLower _ _).mpr hc
      exact absurd hh (by decide)
  · exact (needs_retry_keyword_spec _).2 rfl

/-- Claim C1 (code bug): the state has no retry counter and the engine no
`maxRetries` bound — whenever every review response contains a retry trigger
(here the keyword "fix"), a run started at the review node alternates between
the review and generation nodes forever: after any number of iterations it
stands at one of those two nodes, never reaching the documentation node or
the terminal marker, contradicting the claimed forced advance after three
retries. -/
theorem retry_loop_never_exits (inputs : RunInputs)
    (h : ∀ i, "fix".toList <:+: pyLower (pyStrip (inputs.oracle i)))
    (s : FlowState) (k : Nat) :
    (engineTrace inputs (Node.code_reviewer, s) k).2.1 = Node.code_reviewer ∨
    (engineTrace inputs (Node.code_reviewer, s) k).2.1 = Node.code_generator := by
  induction k with
  | zero => exact Or.inl rfl
  | succ k ih =>
      rcases htr : engineTrace inputs (Node.code_reviewer, s) k with ⟨i, n, st⟩
      rw [htr] at ih
      rw [engineTrace, htr]
      rcases ih with hn | hn
      · have hn' : n = Node.code_reviewer := hn
        subst hn'
        right
        have hretry : needs_retry (applyNode inputs i Node.code_reviewer st) = true := by
          have heq : needs_retry (applyNode inputs i Node.code_reviewer st) =
              (decide ("error".toList <:+: pyLower (pyStrip (inputs.oracle i))) ||
                decide ("fix".toList <:+: pyLower (pyStrip (inputs.oracle i)))) := rfl
          rw [heq, decide_eq_true (h i)]
          exact Bool.or_true _
        show (reviewerEdge
            (reviewer_route (applyNode inputs i Node.code_reviewer st))).getD Node.graphError =
          Node.code_generator
        rw [reviewer_route, if_pos hretry]
        decide
      · have hn' : n = Node.code_generator := hn
        subst hn'
        exact Or.inl rfl

/-- Witness for claim C1: with every service response equal to
"please fix this", the trace started at the review node is still inside the
review-generation cycle after seven iterations. -/
theorem retry_loop_never_exits_witness :
    (engineTrace ⟨fun _ => "please fix this".toList, none, Except.ok []⟩
        (Node.code_reviewer, initState ("write code".toList)) 7).2.1 = Node.code_reviewer ∨
    (engineTrace ⟨fun _ => "please fix this".toList, none, Except.ok []⟩
        (Node.code_reviewer, initState ("write code".toList)) 7).2.1 = Node.code_generator :=
  retry_loop_never_exits _
    (fun _ => (show ("fix".toList <:+: pyLower (pyStrip ("please fix this".toList))) from
      by decide)) _ 7

/-- Claim C7: every run that reaches the terminal marker has `docs_code`
populated — the fallback node writes the same `docs_code` field as the
documentation node — and the result record exposes that field as
`documented_code`, so the final deliverable is available in the single
documented-artifact field on either path. -/
theorem final_text_uniform (inputs : RunInputs) (t : List Char) (k : Nat)
    (hEnd : (engineTrace inputs (Node.orchestrator, initState t) k).2.1 = Node.END) :
    ((engineTrace inputs (Node.orchestrator, initState t) k).2.2).docs_code.isSome = true ∧
    (run_result ((engineTrace inputs (Node.orchestrator, initState t) k).2.2)).documented_code =
      ((engineTrace inputs (Node.orchestrator, initState t) k).2.2).docs_code ∧
    (∀ (s : FlowState) (resp : List Char),
      (fallback_agent s resp).docs_code = some (pyStrip resp) ∧
      (documentation_agent s resp).docs_code = some (pyStrip resp)) :=
  ⟨(engineTrace_docs_invariant inputs t k).2 hEnd, rfl, fun _ _ => ⟨rfl, rfl⟩⟩

/-- Witness for claim C7: a concrete run classified DOCUMENT reaches the
terminal marker after three iterations with a populated `docs_code`. -/
theorem final_text_uniform_witness :
    ((engineTrace ⟨fun _ => "DOCUMENT".toList, none, Except.ok []⟩
        (Node.orchestrator, initState ("add docs".toList)) 3).2.2).docs_code.isSome = true :=
  (final_text_uniform _ _ 3 (by decide)).1
